import Mathlib

/-!
Verification of `src/junk_drawer/decorators/async_tools.py`.

The file defines three decorators — `await_me`, `staticmethod_await_me` and
`classmethod_await_me` — that adapt a synchronous callable into one whose
invocation returns an awaitable.  Each inner `wrapper` checks
`asyncio.iscoroutinefunction(blocker_func)`: if true it awaits
`blocker_func(*args, **kwargs)` directly, otherwise it awaits
`asyncio.to_thread(blocker_func, *args, **kwargs)` (the class variant
prepends `cls` in the offloaded call).  `functools.wraps` copies the
original callable's metadata onto the wrapper, and the static and class
variants wrap the result in `staticmethod(...)` / `classmethod(...)`.

The embedding models a Python callable by its identity metadata
(`__name__`, `__doc__`), its `asyncio.iscoroutinefunction` status, and its
behavior as a function from positional and keyword arguments to a result or
a raised exception.  Awaiting is modelled by its observable effect: the
resolved outcome, whether a worker thread was used, and the argument lists
the original callable received.
-/

/-- A Python exception, identified by its type name and its message. -/
structure Exn where
  ty : String
  msg : String
deriving DecidableEq

/-- The result of running a callable: a return value or a raised exception. -/
abbrev Outcome (R : Type) := Except Exn R

/-- The positional and keyword arguments of one invocation. -/
structure Args (V : Type) where
  pos : List V
  kw : List (String × V)
deriving DecidableEq

/-- A Python callable, as relevant to `async_tools.py`: its `__name__` and
`__doc__`, whether `asyncio.iscoroutinefunction` holds of it, and its
behavior as a function from arguments to an outcome. -/
structure Callable (V R : Type) where
  name : String
  doc : String
  isCoroutineFn : Bool
  run : Args V → Outcome R

/-- The observable effect of awaiting one wrapper invocation: the outcome
the await resolves to (or the exception it re-raises), whether a worker
thread was occupied, and the argument lists the original callable was
invoked with, in order. -/
structure Awaited (V R : Type) where
  outcome : Outcome R
  usedThread : Bool
  origCalls : List (Args V)

/-- Model of `await blocker_func(*args, **kwargs)` when `blocker_func` is a
coroutine function (lines 105, 121 and 137 of the source): the coroutine
runs on the event loop thread and the await yields its result or re-raises
its exception; no worker thread is involved, and the original callable is
invoked once with exactly the given arguments. -/
def awaitCoroutineCall {V R : Type} (f : Callable V R) (a : Args V) : Awaited V R :=
  { outcome := f.run a, usedThread := false, origCalls := [a] }

/-- Model of `await asyncio.to_thread(blocker_func, *args, **kwargs)`
(lines 106, 122 and 138 of the source): `asyncio.to_thread` runs the
callable on a worker thread with the given arguments and the await resolves
to its return value or re-raises the exception it raised, unchanged — the
documented contract of the host runtime's thread-offload primitive. -/
def asyncio_to_thread {V R : Type} (f : Callable V R) (a : Args V) : Awaited V R :=
  { outcome := f.run a, usedThread := true, origCalls := [a] }

/-- The async `wrapper` closure a decorator builds, together with the
metadata `functools.wraps` copied onto it.  `call` is the observable effect
of awaiting `wrapper(*args, **kwargs)`. -/
structure Wrapper (V R : Type) where
  name : String
  doc : String
  call : Args V → Awaited V R

/-- The `wrapper` of the class variant, which receives the owning class as
an explicit leading parameter. -/
structure ClsWrapper (V R : Type) where
  name : String
  doc : String
  call : V → Args V → Awaited V R

/-- The object a decorator returns: a plain function, a `staticmethod`
descriptor holding its wrapper, or a `classmethod` descriptor holding its
wrapper. -/
inductive Decorated (V R : Type) where
  | function (w : Wrapper V R)
  | staticDescriptor (w : Wrapper V R)
  | classDescriptor (w : ClsWrapper V R)

/-- Whether a decorator's result is a plain, directly callable function. -/
def Decorated.isPlainFunction {V R : Type} : Decorated V R → Bool
  | .function _ => true
  | _ => false

/-- Whether a decorator's result is a `staticmethod` descriptor object. -/
def Decorated.isStaticDescriptor {V R : Type} : Decorated V R → Bool
  | .staticDescriptor _ => true
  | _ => false

/-- Whether a decorator's result is a `classmethod` descriptor object. -/
def Decorated.isClassDescriptor {V R : Type} : Decorated V R → Bool
  | .classDescriptor _ => true
  | _ => false

/-- The inner `wrapper` of `await_me` (lines 102-106): `@wraps(blocker_func)`
copies the name and docstring; awaiting `wrapper(*args, **kwargs)` awaits
`blocker_func(*args, **kwargs)` directly when
`asyncio.iscoroutinefunction(blocker_func)`, and otherwise awaits
`asyncio.to_thread(blocker_func, *args, **kwargs)`. -/
def await_me_wrapper {V R : Type} (f : Callable V R) : Wrapper V R :=
  { name := f.name
    doc := f.doc
    call := fun a =>
      if f.isCoroutineFn then awaitCoroutineCall f a
      else asyncio_to_thread f a }

/-- `await_me` (lines 96-107): builds the wrapper and returns it as a plain
function. -/
def await_me {V R : Type} (f : Callable V R) : Decorated V R :=
  .function (await_me_wrapper f)

/-- The inner `wrapper` of `staticmethod_await_me` (lines 118-122); its body
is textually the same as the body of `await_me`'s wrapper. -/
def staticmethod_await_me_wrapper {V R : Type} (f : Callable V R) : Wrapper V R :=
  { name := f.name
    doc := f.doc
    call := fun a =>
      if f.isCoroutineFn then awaitCoroutineCall f a
      else asyncio_to_thread f a }

/-- `staticmethod_await_me` (lines 110-123): builds the wrapper and returns
`staticmethod(wrapper)`. -/
def staticmethod_await_me {V R : Type} (f : Callable V R) : Decorated V R :=
  .staticDescriptor (staticmethod_await_me_wrapper f)

/-- The inner `wrapper` of `classmethod_await_me` (lines 134-138): it
receives the owning class `cls` as an explicit leading parameter.  The
coroutine branch awaits `blocker_func(*args, **kwargs)` — without `cls` —
while the offload branch awaits
`asyncio.to_thread(blocker_func, cls, *args, **kwargs)`, re-inserting `cls`
as the first positional argument. -/
def classmethod_await_me_wrapper {V R : Type} (f : Callable V R) : ClsWrapper V R :=
  { name := f.name
    doc := f.doc
    call := fun cls a =>
      if f.isCoroutineFn then awaitCoroutineCall f a
      else asyncio_to_thread f { pos := cls :: a.pos, kw := a.kw } }

/-- `classmethod_await_me` (lines 126-139): builds the wrapper and returns
`classmethod(wrapper)`. -/
def classmethod_await_me {V R : Type} (f : Callable V R) : Decorated V R :=
  .classDescriptor (classmethod_await_me_wrapper f)

/-- A sequence of independent invocations of one adapted callable: the
observable effect of awaiting the wrapper once per argument list. -/
def runCalls {V R : Type} (w : Wrapper V R) (calls : List (Args V)) : List (Awaited V R) :=
  calls.map (fun a => w.call a)

/-- A synchronous callable used as a concrete instance: sums its positional
arguments. -/
def syncAdd : Callable Nat Nat :=
  { name := "add"
    doc := "sums the positional arguments"
    isCoroutineFn := false
    run := fun a => .ok (a.pos.foldl (· + ·) 0) }

/-- A synchronous callable that always raises `ValueError("bad input")`. -/
def raisingCallable : Callable Nat Nat :=
  { name := "boom"
    doc := "always raises"
    isCoroutineFn := false
    run := fun _ => .error ⟨"ValueError", "bad input"⟩ }

/-- An awaitable-native callable that returns the fixed value 42. -/
def coroConst : Callable Nat Nat :=
  { name := "forty_two"
    doc := "fixed value"
    isCoroutineFn := true
    run := fun _ => .ok 42 }

/-- An awaitable-native class-scoped callable that reports how many
positional arguments it received. -/
def clsProbe : Callable Nat Nat :=
  { name := "probe"
    doc := "counts positional arguments"
    isCoroutineFn := true
    run := fun a => .ok a.pos.length }

/-- A synchronous class-scoped callable that returns its first positional
argument, i.e. reads an attribute off the class reference it receives. -/
def clsAttrReader : Callable Nat Nat :=
  { name := "read_attr"
    doc := "returns the receiver"
    isCoroutineFn := false
    run := fun a => .ok (a.pos.headD 0) }

/-- A synchronous callable returning the number of positional arguments,
under one name. -/
def indepF : Callable Nat Nat :=
  { name := "first"
    doc := "first copy"
    isCoroutineFn := false
    run := fun a => .ok a.pos.length }

/-- The same behavior as `indepF` under a different name and docstring. -/
def indepG : Callable Nat Nat :=
  { name := "second"
    doc := "second copy"
    isCoroutineFn := false
    run := fun a => .ok a.pos.length }

/-- C1: for every synchronous (non-coroutine-function) callable and every
tuple of positional and keyword arguments, awaiting the plain-variant
adapted callable on those arguments yields exactly the outcome of calling
the original callable directly on them. -/
theorem await_me_sync_same_value {V R : Type} (f : Callable V R)
    (h : f.isCoroutineFn = false) (a : Args V) :
    ((await_me_wrapper f).call a).outcome = f.run a := by
  simp [await_me_wrapper, asyncio_to_thread, h]

/-- Witness for C1: awaiting the adapted `syncAdd` on positional arguments
`[2, 3]` yields the same value, 5, as a direct call. -/
theorem await_me_sync_same_value_witness :
    syncAdd.isCoroutineFn = false ∧
    ((await_me_wrapper syncAdd).call ⟨[2, 3], []⟩).outcome = syncAdd.run ⟨[2, 3], []⟩ ∧
    syncAdd.run ⟨[2, 3], []⟩ = .ok 5 :=
  ⟨rfl, await_me_sync_same_value syncAdd rfl ⟨[2, 3], []⟩, rfl⟩

/-- C2: for every callable that raises exception `e` on arguments `a`
(whichever branch — direct await or worker thread — handles the call),
awaiting the adapted callable on `a` re-raises exactly `e`: the same
exception type and message, never wrapped, replaced or swallowed. -/
theorem await_me_propagates_exn {V R : Type} (f : Callable V R) (a : Args V)
    (e : Exn) (h : f.run a = .error e) :
    ((await_me_wrapper f).call a).outcome = .error e := by
  by_cases hc : f.isCoroutineFn <;>
    simp [await_me_wrapper, awaitCoroutineCall, asyncio_to_thread, hc, h]

/-- Witness for C2: the adapted `raisingCallable` re-raises
`ValueError("bad input")` unchanged. -/
theorem await_me_propagates_exn_witness :
    raisingCallable.run ⟨[], []⟩ = .error ⟨"ValueError", "bad input"⟩ ∧
    ((await_me_wrapper raisingCallable).call ⟨[], []⟩).outcome
      = .error ⟨"ValueError", "bad input"⟩ :=
  ⟨rfl, await_me_propagates_exn raisingCallable ⟨[], []⟩ ⟨"ValueError", "bad input"⟩ rfl⟩

/-- C3: for every synchronous callable adapted by the class variant, the
offloaded call re-inserts the owning class as the first positional
argument: the original callable is invoked (on the worker thread) with the
class reference followed by the caller's arguments unchanged, and the await
resolves to the outcome of that invocation. -/
theorem classmethod_offload_reinserts_cls {V R : Type} (f : Callable V R)
    (h : f.isCoroutineFn = false) (cls : V) (a : Args V) :
    ((classmethod_await_me_wrapper f).call cls a).origCalls
        = [{ pos := cls :: a.pos, kw := a.kw }] ∧
    ((classmethod_await_me_wrapper f).call cls a).outcome
        = f.run { pos := cls :: a.pos, kw := a.kw } ∧
    ((classmethod_await_me_wrapper f).call cls a).usedThread = true := by
  refine ⟨?_, ?_, ?_⟩ <;>
    simp [classmethod_await_me_wrapper, asyncio_to_thread, h]

/-- Witness for C3: adapting the class-scoped `clsAttrReader` and calling
it with owning class `7` and one extra argument invokes the original with
`7` prepended, so it reads the correct receiver and returns `7`. -/
theorem classmethod_offload_reinserts_cls_witness :
    clsAttrReader.isCoroutineFn = false ∧
    ((classmethod_await_me_wrapper clsAttrReader).call 7 ⟨[1], []⟩).origCalls
        = [⟨[7, 1], []⟩] ∧
    ((classmethod_await_me_wrapper clsAttrReader).call 7 ⟨[1], []⟩).outcome
        = clsAttrReader.run ⟨[7, 1], []⟩ ∧
    ((classmethod_await_me_wrapper clsAttrReader).call 7 ⟨[1], []⟩).usedThread = true ∧
    clsAttrReader.run ⟨[7, 1], []⟩ = .ok 7 := by
  have h := classmethod_offload_reinserts_cls clsAttrReader rfl 7 ⟨[1], []⟩
  exact ⟨rfl, h.1, h.2.1, h.2.2, rfl⟩

/-- Counterexample to C4: adapting the awaitable-native class-scoped
`clsProbe` with the class variant and calling it through the class with
owning class `99` and positional argument `1`, the direct-delegation branch
invokes the original with `[1]` only — the owning type is dropped — while
the offloaded branch of the same variant (shown on a behaviorally identical
callable that is not coroutine-native) passes `[99, 1]`.  The original
therefore does not receive the class reference in the direct branch. -/
theorem classmethod_direct_branch_drops_cls_cex :
    ((classmethod_await_me_wrapper clsProbe).call 99 ⟨[1], []⟩).origCalls
        = [⟨[1], []⟩] ∧
    ((classmethod_await_me_wrapper clsProbe).call 99 ⟨[1], []⟩).outcome = .ok 1 ∧
    ((classmethod_await_me_wrapper
        { clsProbe with isCoroutineFn := false }).call 99 ⟨[1], []⟩).origCalls
        = [⟨[99, 1], []⟩] ∧
    (⟨[1], []⟩ : Args Nat) ≠ ⟨[99, 1], []⟩ := by
  refine ⟨rfl, rfl, rfl, ?_⟩
  decide

/-- C4 as amended: for an awaitable-native callable adapted by the class
variant, the direct-delegation branch does not pass the owning type
through: the original callable is invoked once with only the caller's
arguments (no worker thread used), unlike the offloaded branch, which
prepends the class reference. -/
theorem classmethod_direct_branch_args {V R : Type} (f : Callable V R)
    (h : f.isCoroutineFn = true) (cls : V) (a : Args V) :
    ((classmethod_await_me_wrapper f).call cls a).origCalls = [a] ∧
    ((classmethod_await_me_wrapper f).call cls a).outcome = f.run a ∧
    ((classmethod_await_me_wrapper f).call cls a).usedThread = false := by
  refine ⟨?_, ?_, ?_⟩ <;>
    simp [classmethod_await_me_wrapper, awaitCoroutineCall, h]

/-- Witness for the amended C4: the direct branch on `clsProbe` with owning
class `99` and argument list `[1]` calls the original with `[1]` only. -/
theorem classmethod_direct_branch_args_witness :
    clsProbe.isCoroutineFn = true ∧
    ((classmethod_await_me_wrapper clsProbe).call 99 ⟨[1], []⟩).origCalls
        = [⟨[1], []⟩] ∧
    ((classmethod_await_me_wrapper clsProbe).call 99 ⟨[1], []⟩).outcome
        = clsProbe.run ⟨[1], []⟩ ∧
    ((classmethod_await_me_wrapper clsProbe).call 99 ⟨[1], []⟩).usedThread = false := by
  have h := classmethod_direct_branch_args clsProbe rfl 99 ⟨[1], []⟩
  exact ⟨rfl, h.1, h.2.1, h.2.2⟩

/-- C5: for every input callable and every argument tuple the static
variant's wrapper behaves identically to the plain variant's wrapper (same
awaited effect, same preserved metadata); the only difference is that the
static variant's result is marked as a `staticmethod` descriptor while the
plain variant's is not. -/
theorem static_variant_equals_plain {V R : Type} (f : Callable V R) (a : Args V) :
    (staticmethod_await_me_wrapper f).call a = (await_me_wrapper f).call a ∧
    (staticmethod_await_me_wrapper f).name = (await_me_wrapper f).name ∧
    (staticmethod_await_me_wrapper f).doc = (await_me_wrapper f).doc ∧
    (staticmethod_await_me f).isStaticDescriptor = true ∧
    (await_me f).isStaticDescriptor = false :=
  ⟨rfl, rfl, rfl, rfl, rfl⟩

/-- C6: for every awaitable-native callable returning a fixed value,
awaiting the plain-variant adapted callable yields that same value by
direct delegation, with no worker thread used. -/
theorem await_me_coroutine_direct {V R : Type} (f : Callable V R)
    (h : f.isCoroutineFn = true) (v : R) (hv : ∀ b, f.run b = .ok v) (a : Args V) :
    ((await_me_wrapper f).call a).outcome = .ok v ∧
    ((await_me_wrapper f).call a).usedThread = false := by
  refine ⟨?_, ?_⟩ <;> simp [await_me_wrapper, awaitCoroutineCall, h, hv a]

/-- Witness for C6: the adapted awaitable-native `coroConst` resolves to 42
without a worker-thread hop. -/
theorem await_me_coroutine_direct_witness :
    coroConst.isCoroutineFn = true ∧
    ((await_me_wrapper coroConst).call ⟨[], []⟩).outcome = .ok 42 ∧
    ((await_me_wrapper coroConst).call ⟨[], []⟩).usedThread = false := by
  have h := await_me_coroutine_direct coroConst rfl 42 (fun _ => rfl) ⟨[], []⟩
  exact ⟨rfl, h.1, h.2⟩

/-- C7: for every input callable, the wrapper produced by each of the three
decorators carries the original callable's name and docstring. -/
theorem wrappers_preserve_name_doc {V R : Type} (f : Callable V R) :
    (await_me_wrapper f).name = f.name ∧
    (await_me_wrapper f).doc = f.doc ∧
    (staticmethod_await_me_wrapper f).name = f.name ∧
    (staticmethod_await_me_wrapper f).doc = f.doc ∧
    (classmethod_await_me_wrapper f).name = f.name ∧
    (classmethod_await_me_wrapper f).doc = f.doc :=
  ⟨rfl, rfl, rfl, rfl, rfl, rfl⟩

/-- C8: every await of an adapted callable invokes the original exactly
once — in all three variants and both branches — and resolves to exactly
the outcome of that single invocation (full success with its value or full
failure with its exception), with no retry or fallback invocation. -/
theorem wrapped_call_invokes_original_once {V R : Type} (f : Callable V R)
    (cls : V) (a : Args V) :
    ((await_me_wrapper f).call a).origCalls.length = 1 ∧
    ((staticmethod_await_me_wrapper f).call a).origCalls.length = 1 ∧
    ((classmethod_await_me_wrapper f).call cls a).origCalls.length = 1 ∧
    (∃ b, ((await_me_wrapper f).call a).origCalls = [b] ∧
          ((await_me_wrapper f).call a).outcome = f.run b) ∧
    (∃ b, ((classmethod_await_me_wrapper f).call cls a).origCalls = [b] ∧
          ((classmethod_await_me_wrapper f).call cls a).outcome = f.run b) := by
  by_cases hc : f.isCoroutineFn <;>
    simp [await_me_wrapper, staticmethod_await_me_wrapper,
      classmethod_await_me_wrapper, awaitCoroutineCall, asyncio_to_thread, hc]

/-- C9: the adapter keeps no state across invocations.  Within any sequence
of calls, each call's awaited effect is a function of only the captured
callable's behavior (its run function and coroutine status) and that call's
own arguments: the result in the middle of any surrounding sequence equals
the one-off result of a behaviorally identical callable, regardless of the
calls before or after it. -/
theorem await_me_calls_independent {V R : Type} (f g : Callable V R)
    (h1 : f.run = g.run) (h2 : f.isCoroutineFn = g.isCoroutineFn)
    (s1 s2 : List (Args V)) (a : Args V) :
    runCalls (await_me_wrapper f) (s1 ++ a :: s2)
      = runCalls (await_me_wrapper f) s1
        ++ (await_me_wrapper g).call a :: runCalls (await_me_wrapper f) s2 := by
  simp [runCalls, await_me_wrapper, awaitCoroutineCall, asyncio_to_thread, h1, h2]

/-- Witness for C9: a call of the adapted `indepF`, surrounded by other
invocations, produces exactly the effect of a lone call of the adapted
`indepG`, a callable with the same behavior but a different name. -/
theorem await_me_calls_independent_witness :
    indepF.run = indepG.run ∧
    indepF.isCoroutineFn = indepG.isCoroutineFn ∧
    runCalls (await_me_wrapper indepF) ([⟨[5], []⟩] ++ ⟨[1, 2], []⟩ :: [⟨[], []⟩])
      = runCalls (await_me_wrapper indepF) [⟨[5], []⟩]
        ++ (await_me_wrapper indepG).call ⟨[1, 2], []⟩
          :: runCalls (await_me_wrapper indepF) [⟨[], []⟩] :=
  ⟨rfl, rfl,
    await_me_calls_independent indepF indepG rfl rfl [⟨[5], []⟩] [⟨[], []⟩] ⟨[1, 2], []⟩⟩

/-- C10: for every input callable, `staticmethod_await_me` returns a
`staticmethod` descriptor object and `classmethod_await_me` returns a
`classmethod` descriptor object — neither is a plain function — while
`await_me` alone returns a directly callable plain function. -/
theorem decorators_return_descriptor_kinds {V R : Type} (f : Callable V R) :
    (staticmethod_await_me f).isStaticDescriptor = true ∧
    (classmethod_await_me f).isClassDescriptor = true ∧
    (await_me f).isPlainFunction = true ∧
    (staticmethod_await_me f).isPlainFunction = false ∧
    (classmethod_await_me f).isPlainFunction = false :=
  ⟨rfl, rfl, rfl, rfl, rfl⟩
